import Mathlib

/-
Verification development for the xylositemonitor script.

The Python source is embedded shallowly: the pure parsing and
classification logic is translated function by function, and the
external world (ssl.get_server_certificate, pycurl transfers, codecs)
is a record of oracle functions.  A call that the script does not
guard can surface an exception, modelled with Except; config_fail
calls sys.exit and is modelled as a distinct abnormal result.  The
network operations the script performs are also recorded in an event
trace so that theorems can speak about which requests were issued.
-/

namespace Xylo

/-- Outcome record built by the functions test_fail and test_success. -/
structure TestResult where
  success : Bool
  text_body : String
  mail_body : String
deriving DecidableEq

/-- Abnormal termination of the whole run: configError models config_fail,
which prints or mails and then calls sys.exit; exc models a Python
exception that no handler in the script catches. -/
inductive Abort where
  | configError (msg : String)
  | exc (msg : String)
deriving DecidableEq

/-- ANSI color code stored under key FAIL of BCOLORS. -/
def bcFAIL : String := "\x1b[91m"

/-- ANSI color code stored under key OKGREEN of BCOLORS. -/
def bcOKGREEN : String := "\x1b[92m"

/-- ANSI color code stored under key ENDC of BCOLORS. -/
def bcENDC : String := "\x1b[0m"

/-- Embeds the function test_fail of the script. -/
def test_fail (message : String) : TestResult :=
  { success := false,
    text_body := bcFAIL ++ "  Test Fail! " ++ message ++ bcENDC ++ "\n",
    mail_body := "  Test Fail! " ++ message ++ "\n" }

/-- Embeds the function test_success of the script. -/
def test_success : TestResult :=
  { success := true,
    text_body := bcOKGREEN ++ " Test Success!" ++ bcENDC ++ "\n",
    mail_body := " Test Success!" ++ "\n" }

/-- The headers dict: a Python dict from string to string, modelled as an
association list in insertion order. -/
abbrev HeaderMap := List (String × String)

/-- Dict lookup, headers[k], as an Option. -/
def dget (m : HeaderMap) (k : String) : Option String :=
  match m.find? (fun p => p.1 == k) with
  | some p => some p.2
  | none => none

/-- Dict assignment headers[k] = v: replaces in place when the key exists,
appends otherwise, as a Python dict does. -/
def dset (m : HeaderMap) (k v : String) : HeaderMap :=
  if m.any (fun p => p.1 == k) then
    m.map (fun p => if p.1 == k then (k, v) else p)
  else m ++ [(k, v)]

/-- Python str.strip: drop whitespace from both ends. -/
def pyStrip (s : String) : String :=
  String.mk (((s.data.dropWhile Char.isWhitespace).reverse.dropWhile Char.isWhitespace).reverse)

/-- Python str.lower restricted to ASCII, which is all the script compares. -/
def pyLower (s : String) : String :=
  String.mk (s.data.map Char.toLower)

/-- Python slicing s[:n]. -/
def pyTake (s : String) (n : Nat) : String :=
  String.mk (s.data.take n)

/-- Is one list of characters a leading segment of another. -/
def listIsPref : List Char → List Char → Bool
  | [], _ => true
  | _ :: _, [] => false
  | a :: as, b :: bs => a == b && listIsPref as bs

/-- Does the needle occur contiguously anywhere in the haystack. -/
def occursIn (needle : List Char) : List Char → Bool
  | [] => listIsPref needle []
  | c :: rest => listIsPref needle (c :: rest) || occursIn needle rest

/-- Python substring test, needle in hay. -/
def containsSub (hay needle : String) : Bool :=
  occursIn needle.data hay.data

/-- The presence test the script applies to optional config fields:
re.search of the pattern for one or more ASCII alphanumerics succeeds. -/
def hasAlnum (s : String) : Bool :=
  s.data.any Char.isAlphanum

/-- The regex search of HTTP/ followed by a digit 1 to 9 applied to the
first six characters of a header line. -/
def isStatusLine (line : String) : Bool :=
  match line.data with
  | 'H' :: 'T' :: 'T' :: 'P' :: '/' :: c :: _ => decide ('1' ≤ c) && decide (c ≤ '9')
  | _ => false

/-- The regex search for three consecutive decimal digits: returns the
leftmost such run, none when the line has no run of three digits. -/
def findThreeDigits : List Char → Option String
  | a :: b :: c :: rest =>
    if a.isDigit && b.isDigit && c.isDigit then some (String.mk [a, b, c])
    else findThreeDigits (b :: c :: rest)
  | _ => none

/-- Embeds header_function: the status line stores its three digit code
under the dedicated status key and nothing else; on a status line with no
run of three digits, group(0) is called on None and AttributeError is
raised; lines without a colon are ignored; other lines are split at the
first colon, stripped, the name lowercased, and recorded in the dict. -/
def header_function (headers : HeaderMap) (header_line : String) : Except String HeaderMap :=
  if isStatusLine header_line then
    match findThreeDigits header_line.data with
    | some status => .ok (dset headers "status" status)
    | none => .error "AttributeError"
  else if header_line.data.contains ':' then
    match header_line.data.span (fun c => !(c == ':')) with
    | (before, rest) =>
      let hname := pyLower (pyStrip (String.mk before))
      let value := pyStrip (String.mk (rest.drop 1))
      .ok (dset headers hname value)
  else .ok headers

/-- Folds header_function over the header lines of a response, as pycurl
does by invoking the callback once per line. -/
def process_headers (headers : HeaderMap) : List String → Except String HeaderMap
  | [] => .ok headers
  | l :: ls =>
    match header_function headers l with
    | .error m => .error m
    | .ok h2 => process_headers h2 ls

/-- The regex search for charset= followed by one or more non-whitespace
characters: finds the first position where charset= is followed by a
nonempty non-whitespace token and returns that token. -/
def charsetOf : List Char → Option String
  | [] => none
  | c :: rest =>
    if listIsPref ("charset=".data) (c :: rest) then
      match ((c :: rest).drop 8).takeWhile (fun ch => !ch.isWhitespace) with
      | [] => charsetOf rest
      | ts => some (String.mk ts)
    else charsetOf rest

/-- Embeds the encoding resolution block of perform_test: the charset
parameter of the lowercased content-type header when present, the
iso-8859-1 default otherwise. -/
def resolveEncoding (headers : HeaderMap) : String :=
  match dget headers "content-type" with
  | some ct =>
    match charsetOf (pyLower ct).data with
    | some enc => enc
    | none => "iso-8859-1"
  | none => "iso-8859-1"

/-- Certificate data the script derives from the fetched PEM via OpenSSL:
get_notAfter parsed by strptime, held here as epoch seconds, together
with the iso date string that etime.date().isoformat() renders. -/
structure CertInfo where
  notAfterSec : Int
  notAfterDateIso : String
deriving DecidableEq

/-- Raw material a completed curl transfer delivers: the header lines the
callback receives, already decoded from iso-8859-1, and the body bytes. -/
structure CurlResponse where
  headerLines : List String
  bodyBytes : List Nat
deriving DecidableEq

/-- The external world: ssl.get_server_certificate with the OpenSSL
parsing (per host), the curl transfer (per full url and IPRESOLVE value),
the codec used for bytes.decode (per encoding name and bytes), and the
current utc time in epoch seconds.  An error value is the message of the
exception the library call raises. -/
structure NetEnv where
  nowSec : Int
  certFetch : String → Except String CertInfo
  curl : String → Nat → Except String CurlResponse
  codecs : String → List Nat → Except String String

/-- Network operations the script performs, recorded in order. -/
inductive NetEvent where
  | certFetch (host : String)
  | curlPerform (url : String) (iptype : Nat)
deriving DecidableEq

/-- How many certificate fetches a trace holds. -/
def countCert (tr : List NetEvent) : Nat :=
  (tr.filter (fun e => match e with | .certFetch _ => true | _ => false)).length

/-- timedelta(weeks=2) in seconds, the hardcoded expiry horizon. -/
def two_weeks : Int := 2 * 7 * 24 * 60 * 60

/-- url.split with slash, item zero: the text before the first slash. -/
def hostOf (url : String) : String :=
  String.mk (url.data.takeWhile (fun c => !(c == '/')))

/-- Embeds the action dispatch of perform_test, from the check that the
status key is present through the match statement on the action: http
success tests for status 200; return string tests status first, then
validates the expected string config field (config_fail when it has no
alphanumeric character), then greps the body; redirect tests the status
class, then the location header presence, then validates the canonical
address config field, then compares the location byte for byte; any
other action is config_fail. -/
def evaluate (action ex_string can_address : String) (headers : HeaderMap)
    (responsebody : String) : Except Abort TestResult :=
  match dget headers "status" with
  | none => .ok (test_fail "Can't get HTTP response code!")
  | some status =>
    if action = "http success" then
      if status ≠ "200" then .ok (test_fail ("HTTP status is: " ++ status))
      else .ok test_success
    else if action = "return string" then
      if status ≠ "200" then .ok (test_fail ("HTTP status is: " ++ status))
      else if !(hasAlnum ex_string) then
        .error (.configError "\"return string\" check specified but \"expected string\" is not defined!")
      else if !(containsSub responsebody ex_string) then
        .ok (test_fail "Don't find expected string!")
      else .ok test_success
    else if action = "redirect" then
      if pyTake status 1 ≠ "3" then
        .ok (test_fail ("Response code is not a redirect: " ++ status))
      else
        match dget headers "location" with
        | none => .ok (test_fail "Response code is a redirect but no Location header!")
        | some loc =>
          if !(hasAlnum can_address) then
            .error (.configError "\"redirect\" check specified but \"canonical address\" is not defined!")
          else if loc ≠ can_address then
            .ok (test_fail ("Redirect location is wrong: " ++ loc))
          else .ok test_success
    else .error (.configError "action not recognised!")

/-- The curl section of perform_test: the transfer itself (only
pycurl.error is caught, becoming test_fail of the error text), the
header parse via the callback, the encoding resolution, the body decode,
and the action evaluation.  Exceptions from the callback or the decode
have no handler and propagate. -/
def perform_curl_res (env : NetEnv) (pfx url action ex_string can_address : String)
    (curliptype : Nat) : Except Abort TestResult :=
  match env.curl (pfx ++ url) curliptype with
  | .error e => .ok (test_fail e)
  | .ok resp =>
    match process_headers [] resp.headerLines with
    | .error m => .error (.exc m)
    | .ok headers =>
      let encoding := resolveEncoding headers
      match env.codecs encoding resp.bodyBytes with
      | .error m => .error (.exc m)
      | .ok responsebody => evaluate action ex_string can_address headers responsebody

/-- The curl section together with the event it performs. -/
def perform_curl (env : NetEnv) (pfx url action ex_string can_address : String)
    (curliptype : Nat) : Except Abort TestResult × List NetEvent :=
  (perform_curl_res env pfx url action ex_string can_address curliptype,
   [NetEvent.curlPerform (pfx ++ url) curliptype])

/-- Embeds perform_test.  For an https prefix the certificate of the host
is fetched and checked first: a fetch exception propagates (the call is
not inside any try), and a certificate whose notAfter lies less than two
weeks ahead makes the whole test return test_fail at once, without any
curl transfer.  Otherwise the curl section runs. -/
def perform_test (env : NetEnv) (pfx url action ex_string can_address : String)
    (curliptype : Nat) : Except Abort TestResult × List NetEvent :=
  if pfx = "https://" then
    match env.certFetch (hostOf url) with
    | .error m => (.error (.exc m), [NetEvent.certFetch (hostOf url)])
    | .ok cert =>
      if cert.notAfterSec - env.nowSec < two_weeks then
        (.ok (test_fail ("certificate expires in " ++ cert.notAfterDateIso)),
         [NetEvent.certFetch (hostOf url)])
      else
        match perform_curl env pfx url action ex_string can_address curliptype with
        | (r, tr) => (r, NetEvent.certFetch (hostOf url) :: tr)
  else perform_curl env pfx url action ex_string can_address curliptype

/-- One test of the declarative site config. -/
structure TestDef where
  action : String
  protocols : List String
deriving DecidableEq

/-- One url of the declarative site config with its tests. -/
structure UrlDef where
  url : String
  tests : List TestDef
deriving DecidableEq

/-- One site of the declarative config; absent optional keys are none. -/
structure SiteConfig where
  name : String
  urls : List UrlDef
  expected_string : Option String
  canonical_address : Option String
  ipv4 : Option Bool
  ipv6 : Option Bool
deriving DecidableEq

/-- Result record test_site builds for one site. -/
structure SiteResult where
  name : String
  tests : List TestResult
  success_count : Nat
  fail_count : Nat
deriving DecidableEq

/-- The description line test_site prepends to both bodies of a result. -/
def describe (ipver url action protocol : String) (r : TestResult) : TestResult :=
  { r with
    mail_body := ipver ++ ", does \"" ++ url ++ "\" " ++ action ++ " over \"" ++
      protocol ++ "\"?" ++ "\n" ++ r.mail_body,
    text_body := ipver ++ ", does \"" ++ url ++ "\" " ++ action ++ " over \"" ++
      protocol ++ "\"?" ++ "\n" ++ r.text_body }

/-- Sequencing of two loop sections: an abort in the first one stops
everything, otherwise the result lists and the event traces concatenate. -/
def andThen (a : Except Abort (List TestResult) × List NetEvent)
    (b : Unit → Except Abort (List TestResult) × List NetEvent) :
    Except Abort (List TestResult) × List NetEvent :=
  match a with
  | (.error e, tr) => (.error e, tr)
  | (.ok rs, tr) =>
    match b () with
    | (.error e, tr2) => (.error e, tr ++ tr2)
    | (.ok rs2, tr2) => (.ok (rs ++ rs2), tr ++ tr2)

/-- One iteration of the ipver loop body of test_site: run the test and
prepend the description. -/
def run_one_ipver (env : NetEnv) (pfx url action protocol ex_string can_address : String)
    (ipver : String) (curliptype : Nat) : Except Abort (List TestResult) × List NetEvent :=
  match perform_test env pfx url action ex_string can_address curliptype with
  | (.ok r, tr) => (.ok [describe ipver url action protocol r], tr)
  | (.error e, tr) => (.error e, tr)

/-- The ipver loop of test_site: IPv4 with IPRESOLVE value 1 when
enabled, then IPv6 with IPRESOLVE value 2 when enabled. -/
def run_ipvers (env : NetEnv) (pfx url action protocol ex_string can_address : String)
    (testipv4 testipv6 : Bool) : Except Abort (List TestResult) × List NetEvent :=
  andThen
    (if testipv4 then run_one_ipver env pfx url action protocol ex_string can_address "IPv4" 1
     else (.ok [], []))
    (fun _ =>
      if testipv6 then run_one_ipver env pfx url action protocol ex_string can_address "IPv6" 2
      else (.ok [], []))

/-- The protocol loop of test_site: TLS selects the https prefix, no-TLS
the http prefix, anything else is config_fail. -/
def run_protocols (env : NetEnv) (url action ex_string can_address : String)
    (testipv4 testipv6 : Bool) : List String → Except Abort (List TestResult) × List NetEvent
  | [] => (.ok [], [])
  | p :: ps =>
    if p = "TLS" then
      andThen (run_ipvers env "https://" url action p ex_string can_address testipv4 testipv6)
        (fun _ => run_protocols env url action ex_string can_address testipv4 testipv6 ps)
    else if p = "no-TLS" then
      andThen (run_ipvers env "http://" url action p ex_string can_address testipv4 testipv6)
        (fun _ => run_protocols env url action ex_string can_address testipv4 testipv6 ps)
    else (.error (.configError "Supported protocols are \"TLS\" and \"no-TLS\"."), [])

/-- The test loop of test_site. -/
def run_tests (env : NetEnv) (url ex_string can_address : String)
    (testipv4 testipv6 : Bool) : List TestDef → Except Abort (List TestResult) × List NetEvent
  | [] => (.ok [], [])
  | t :: ts =>
    andThen (run_protocols env url t.action ex_string can_address testipv4 testipv6 t.protocols)
      (fun _ => run_tests env url ex_string can_address testipv4 testipv6 ts)

/-- The url loop of test_site: a url that embeds a scheme is config_fail
before any of its tests run. -/
def run_urls (env : NetEnv) (ex_string can_address : String)
    (testipv4 testipv6 : Bool) : List UrlDef → Except Abort (List TestResult) × List NetEvent
  | [] => (.ok [], [])
  | u :: us =>
    if pyTake u.url 7 = "http://" ∨ pyTake u.url 8 = "https://" then
      (.error (.configError "Do not specify protocol in url."), [])
    else
      andThen (run_tests env u.url ex_string can_address testipv4 testipv6 u.tests)
        (fun _ => run_urls env ex_string can_address testipv4 testipv6 us)

/-- Embeds test_site: reads the optional config fields with their
defaults, runs the nested loops, and tallies the boolean outcomes. -/
def test_site (env : NetEnv) (site : SiteConfig) : Except Abort SiteResult × List NetEvent :=
  let ex_string := site.expected_string.getD ""
  let can_address := site.canonical_address.getD ""
  let testipv4 := site.ipv4.getD true
  let testipv6 := site.ipv6.getD true
  match run_urls env ex_string can_address testipv4 testipv6 site.urls with
  | (.error e, tr) => (.error e, tr)
  | (.ok tests, tr) =>
    (.ok { name := site.name, tests := tests,
           success_count := (tests.map (fun t => t.success)).count true,
           fail_count := (tests.map (fun t => t.success)).count false }, tr)

/-- Embeds check_result: a site with no failed test is returned as is,
with no retesting; otherwise the site config of the same name is looked
up in the sites list (item zero of the filtered list, IndexError when
empty) and tested from scratch. -/
def check_result (env : NetEnv) (siteconfigs : List SiteConfig) (site : SiteResult) :
    Except Abort SiteResult × List NetEvent :=
  if site.fail_count == 0 then (.ok site, [])
  else
    match siteconfigs.filter (fun x => x.name == site.name) with
    | [] => (.error (.exc "IndexError"), [])
    | s :: _ => test_site env s

/-- Stable insertion of a site result into a list that is already sorted
by descending fail_count: walks past entries with a strictly larger
count and stops before the first entry whose count is not larger, so an
earlier element stays before later elements of equal count. -/
def insertDesc (x : SiteResult) : List SiteResult → List SiteResult
  | [] => [x]
  | y :: ys =>
    if x.fail_count < y.fail_count then y :: insertDesc x ys
    else x :: y :: ys

/-- Embeds sorted with key fail_count and reverse True, which is a stable
descending sort. -/
def pySorted (l : List SiteResult) : List SiteResult :=
  l.foldr insertDesc []

/-- Runs a fallible step over each element, stopping at the first abort,
as a Python list comprehension does when an element raises or exits. -/
def mapExcept {α β : Type} (f : α → Except Abort β) : List α → Except Abort (List β)
  | [] => .ok []
  | x :: xs =>
    match f x with
    | .error e => .error e
    | .ok y =>
      match mapExcept f xs with
      | .error e => .error e
      | .ok ys => .ok (y :: ys)

/-- Embeds the orchestration at the bottom of the script: first pass over
all sites, retest via check_result when any site has a failure (env2 is
the world after the ten second sleep), and the final stable sort by
descending fail_count. -/
def run_monitor (env1 env2 : NetEnv) (siteconfigs : List SiteConfig) :
    Except Abort (List SiteResult) :=
  match mapExcept (fun s => (test_site env1 s).1) siteconfigs with
  | .error e => .error e
  | .ok siteresults =>
    if 0 < (siteresults.filter (fun x => x.fail_count != 0)).length then
      match mapExcept (fun sr => (check_result env2 siteconfigs sr).1) siteresults with
      | .error e => .error e
      | .ok rs => .ok (pySorted rs)
    else .ok (pySorted siteresults)

/-- A certificate that is valid far beyond the two week horizon. -/
def certOkFar : CertInfo := { notAfterSec := 100000000, notAfterDateIso := "2029-03-03" }

/-- A certificate whose notAfter lies five days ahead of time zero. -/
def certBad : CertInfo := { notAfterSec := 432000, notAfterDateIso := "2026-10-17" }

/-- A certificate whose notAfter lies ten days ahead of time zero. -/
def certTenDays : CertInfo := { notAfterSec := 864000, notAfterDateIso := "2026-10-22" }

/-- A plain 200 response with a content type and a two byte body. -/
def resp200 : CurlResponse :=
  { headerLines := ["HTTP/1.1 200 OK\r\n", "Content-Type: text/html\r\n", "\r\n"],
    bodyBytes := [104, 105] }

/-- A plain 500 response. -/
def resp500 : CurlResponse :=
  { headerLines := ["HTTP/1.1 500 Server Error\r\n", "\r\n"], bodyBytes := [] }

/-- A world where every probe succeeds with status 200 and the
certificate is far from expiry. -/
def envOk : NetEnv :=
  { nowSec := 0,
    certFetch := fun _ => .ok certOkFar,
    curl := fun _ _ => .ok resp200,
    codecs := fun _ _ => .ok "hi" }

/-- A world like envOk except that the certificate expires in five days. -/
def envBad : NetEnv :=
  { nowSec := 0,
    certFetch := fun _ => .ok certBad,
    curl := fun _ _ => .ok resp200,
    codecs := fun _ _ => .ok "hi" }

/-- A world like envOk except that the certificate expires in ten days. -/
def envTenDays : NetEnv :=
  { nowSec := 0,
    certFetch := fun _ => .ok certTenDays,
    curl := fun _ _ => .ok resp200,
    codecs := fun _ _ => .ok "hi" }

/-- A world where fetching the server certificate raises. -/
def envCertErr : NetEnv :=
  { nowSec := 0,
    certFetch := fun _ => .error "ssl.SSLEOFError",
    curl := fun _ _ => .ok resp200,
    codecs := fun _ _ => .ok "hi" }

/-- A world where the curl transfer itself fails. -/
def envCurlFail : NetEnv :=
  { nowSec := 0,
    certFetch := fun _ => .ok certOkFar,
    curl := fun _ _ => .error "(28, 'Connection timed out')",
    codecs := fun _ _ => .ok "hi" }

/-- A world where every probe answers with status 500. -/
def env500 : NetEnv :=
  { nowSec := 0,
    certFetch := fun _ => .ok certOkFar,
    curl := fun _ _ => .ok resp500,
    codecs := fun _ _ => .ok "some body text" }

/-- The end to end scenario site of the spec: one url, one http success
test under TLS only, both families enabled. -/
def siteExample : SiteConfig :=
  { name := "Example",
    urls := [{ url := "example.com",
               tests := [{ action := "http success", protocols := ["TLS"] }] }],
    expected_string := none,
    canonical_address := none,
    ipv4 := none,
    ipv6 := none }

/-- The result the script builds for siteExample in the world envOk. -/
def siteExampleOkResult : SiteResult :=
  { name := "Example",
    tests :=
      [{ success := true,
         text_body := "IPv4, does \"example.com\" http success over \"TLS\"?\n" ++
           bcOKGREEN ++ " Test Success!" ++ bcENDC ++ "\n",
         mail_body := "IPv4, does \"example.com\" http success over \"TLS\"?\n" ++
           " Test Success!" ++ "\n" },
       { success := true,
         text_body := "IPv6, does \"example.com\" http success over \"TLS\"?\n" ++
           bcOKGREEN ++ " Test Success!" ++ bcENDC ++ "\n",
         mail_body := "IPv6, does \"example.com\" http success over \"TLS\"?\n" ++
           " Test Success!" ++ "\n" }],
    success_count := 2,
    fail_count := 0 }

/-- The result the script builds for siteExample in the world envBad:
each probe reports the certificate failure as its own outcome. -/
def siteExampleBadResult : SiteResult :=
  { name := "Example",
    tests :=
      [{ success := false,
         text_body := "IPv4, does \"example.com\" http success over \"TLS\"?\n" ++
           bcFAIL ++ "  Test Fail! certificate expires in 2026-10-17" ++ bcENDC ++ "\n",
         mail_body := "IPv4, does \"example.com\" http success over \"TLS\"?\n" ++
           "  Test Fail! certificate expires in 2026-10-17" ++ "\n" },
       { success := false,
         text_body := "IPv6, does \"example.com\" http success over \"TLS\"?\n" ++
           bcFAIL ++ "  Test Fail! certificate expires in 2026-10-17" ++ bcENDC ++ "\n",
         mail_body := "IPv6, does \"example.com\" http success over \"TLS\"?\n" ++
           "  Test Fail! certificate expires in 2026-10-17" ++ "\n" }],
    success_count := 0,
    fail_count := 2 }

/-- Site results with fail counts 0, 2, 0 and 1, in that input order. -/
def srA : SiteResult := { name := "A", tests := [], success_count := 3, fail_count := 0 }

/-- Second entry of the sort example, fail count 2. -/
def srB : SiteResult := { name := "B", tests := [], success_count := 1, fail_count := 2 }

/-- Third entry of the sort example, fail count 0 again. -/
def srC : SiteResult := { name := "C", tests := [], success_count := 3, fail_count := 0 }

/-- Fourth entry of the sort example, fail count 1. -/
def srD : SiteResult := { name := "D", tests := [], success_count := 2, fail_count := 1 }

/-- Membership in a stable insertion is membership in the parts. -/
theorem mem_insertDesc {x a : SiteResult} :
    ∀ l : List SiteResult, a ∈ insertDesc x l ↔ a = x ∨ a ∈ l := by
  intro l
  induction l with
  | nil => simp [insertDesc]
  | cons y ys ih =>
    simp only [insertDesc]
    by_cases h : x.fail_count < y.fail_count
    · rw [if_pos h]
      simp only [List.mem_cons, ih]
      tauto
    · rw [if_neg h]
      simp only [List.mem_cons]

/-- Stable insertion keeps the list sorted by descending fail count. -/
theorem pairwise_insertDesc (x : SiteResult) :
    ∀ l : List SiteResult,
      List.Pairwise (fun a b => b.fail_count ≤ a.fail_count) l →
      List.Pairwise (fun a b => b.fail_count ≤ a.fail_count) (insertDesc x l) := by
  intro l
  induction l with
  | nil =>
    intro _
    simp [insertDesc]
  | cons y ys ih =>
    intro hp
    rw [List.pairwise_cons] at hp
    obtain ⟨hy, hys⟩ := hp
    simp only [insertDesc]
    by_cases h : x.fail_count < y.fail_count
    · rw [if_pos h]
      rw [List.pairwise_cons]
      refine ⟨?_, ih hys⟩
      intro z hz
      rcases (mem_insertDesc ys).mp hz with hzx | hz2
      · rw [hzx]
        exact Nat.le_of_lt h
      · exact hy z hz2
    · rw [if_neg h]
      rw [List.pairwise_cons]
      refine ⟨?_, List.pairwise_cons.mpr ⟨hy, hys⟩⟩
      intro z hz
      rcases List.mem_cons.mp hz with hzy | hz2
      · rw [hzy]
        exact Nat.le_of_not_lt h
      · exact le_trans (hy z hz2) (Nat.le_of_not_lt h)

/-- The embedded sort always yields a list sorted by descending fail
count. -/
theorem pairwise_pySorted :
    ∀ l : List SiteResult,
      List.Pairwise (fun a b => b.fail_count ≤ a.fail_count) (pySorted l)
  | [] => List.Pairwise.nil
  | x :: xs => pairwise_insertDesc x (pySorted xs) (pairwise_pySorted xs)

/-- The embedded sort keeps every element of its input. -/
theorem mem_pySorted {a : SiteResult} :
    ∀ l : List SiteResult, a ∈ l → a ∈ pySorted l := by
  intro l
  induction l with
  | nil =>
    intro h
    cases h
  | cons x xs ih =>
    intro h
    rcases List.mem_cons.mp h with hx | h2
    · exact (mem_insertDesc (pySorted xs)).mpr (Or.inl hx)
    · exact (mem_insertDesc (pySorted xs)).mpr (Or.inr (ih h2))

/-- An element that a fallible map sends to an ok value lands in the
output list. -/
theorem mapExcept_mem {α β : Type} {f : α → Except Abort β} :
    ∀ (l : List α) (l2 : List β) (a : α) (b : β),
      mapExcept f l = .ok l2 → a ∈ l → f a = .ok b → b ∈ l2 := by
  intro l
  induction l with
  | nil =>
    intro l2 a b _ ha _
    cases ha
  | cons x xs ih =>
    intro l2 a b hm ha hf
    simp only [mapExcept] at hm
    cases hx : f x with
    | error e =>
      rw [hx] at hm
      cases hm
    | ok y =>
      rw [hx] at hm
      cases hxs : mapExcept f xs with
      | error e =>
        rw [hxs] at hm
        cases hm
      | ok ys =>
        rw [hxs] at hm
        injection hm with hl
        subst hl
        rcases List.mem_cons.mp ha with hax | haxs
        · subst hax
          rw [hf] at hx
          injection hx with hb
          exact List.mem_cons.mpr (Or.inl hb)
        · exact List.mem_cons.mpr (Or.inr (ih ys a b hxs haxs hf))

/-- Unfolding of evaluate once the status key is known present. -/
theorem evaluate_some (action ex_string can_address : String) (headers : HeaderMap)
    (responsebody st : String) (hst : dget headers "status" = some st) :
    evaluate action ex_string can_address headers responsebody =
      (if action = "http success" then
        if st ≠ "200" then .ok (test_fail ("HTTP status is: " ++ st))
        else .ok test_success
      else if action = "return string" then
        if st ≠ "200" then .ok (test_fail ("HTTP status is: " ++ st))
        else if !(hasAlnum ex_string) then
          .error (.configError "\"return string\" check specified but \"expected string\" is not defined!")
        else if !(containsSub responsebody ex_string) then
          .ok (test_fail "Don't find expected string!")
        else .ok test_success
      else if action = "redirect" then
        if pyTake st 1 ≠ "3" then
          .ok (test_fail ("Response code is not a redirect: " ++ st))
        else
          match dget headers "location" with
          | none => .ok (test_fail "Response code is a redirect but no Location header!")
          | some loc =>
            if !(hasAlnum can_address) then
              .error (.configError "\"redirect\" check specified but \"canonical address\" is not defined!")
            else if loc ≠ can_address then
              .ok (test_fail ("Redirect location is wrong: " ++ loc))
            else .ok test_success
      else .error (.configError "action not recognised!")) := by
  unfold evaluate
  rw [hst]

/-- C4 counterexample: a return string test whose expected string is
empty, probing a url that answers 500, yields an ordinary per test
failure naming the status; the run is not terminated, although the
claim demands a fatal configuration error regardless of the response. -/
theorem c4_cex :
    (perform_test env500 "http://" "example.com" "return string" "" "" 1).1 =
      .ok (test_fail "HTTP status is: 500") := rfl

/-- C4 as amended: for a return string test whose expected string has no
alphanumeric character (so also when absent or empty), the evaluation is
a run terminating configuration error exactly when the response status
is 200; when the status differs from 200 the test fails on the status
before the expected string is ever validated. -/
theorem c4_thm :
    ∀ (headers : HeaderMap) (responsebody ex_string can_address st : String),
      hasAlnum ex_string = false →
      (dget headers "status" = some "200" →
        evaluate "return string" ex_string can_address headers responsebody =
          .error (.configError "\"return string\" check specified but \"expected string\" is not defined!"))
      ∧ (dget headers "status" = some st → st ≠ "200" →
        evaluate "return string" ex_string can_address headers responsebody =
          .ok (test_fail ("HTTP status is: " ++ st))) := by
  intro headers responsebody ex_string can_address st hex
  constructor
  · intro h200
    rw [evaluate_some "return string" ex_string can_address headers responsebody "200" h200]
    rw [if_neg (by decide : ¬("return string" : String) = "http success")]
    rw [if_pos (by decide : ("return string" : String) = "return string")]
    rw [if_neg (not_not_intro rfl)]
    rw [hex]
    rw [if_pos (by decide : (!false) = true)]
  · intro hst hne
    rw [evaluate_some "return string" ex_string can_address headers responsebody st hst]
    rw [if_neg (by decide : ¬("return string" : String) = "http success")]
    rw [if_pos (by decide : ("return string" : String) = "return string")]
    rw [if_pos hne]

/-- C4 witness: with the expected string absent and a 200 response the
evaluation is the fatal configuration error. -/
theorem c4_wit :
    evaluate "return string" "" "" [("status", "200")] "hello" =
      .error (.configError "\"return string\" check specified but \"expected string\" is not defined!") :=
  (c4_thm [("status", "200")] "hello" "" "" "200" rfl).1 rfl

/-- C5 counterexample: the expected string of three exclamation marks is
nonempty and the 200 body contains it, yet the evaluation is the fatal
configuration error, not a success: the presence check of the script is
a search for an alphanumeric character, not an emptiness test. -/
theorem c5_cex :
    evaluate "return string" "!!!" "" [("status", "200")] "well !!! indeed" =
      .error (.configError "\"return string\" check specified but \"expected string\" is not defined!")
    ∧ ("!!!" : String) ≠ ""
    ∧ containsSub "well !!! indeed" "!!!" = true :=
  ⟨rfl, by decide, rfl⟩

/-- C5 as amended: for every return string evaluation whose expected
string has at least one ASCII alphanumeric character: status 200 with
the substring present yields success; status 200 with it absent fails
naming the missing string message; any other status fails naming the
observed status, for every body alike, so the substring check is never
attempted there. -/
theorem c5_thm :
    ∀ (ex_string can_address : String) (headers : HeaderMap) (responsebody st : String),
      hasAlnum ex_string = true →
      dget headers "status" = some st →
      ((st = "200" → containsSub responsebody ex_string = true →
          evaluate "return string" ex_string can_address headers responsebody = .ok test_success)
       ∧ (st = "200" → containsSub responsebody ex_string = false →
          evaluate "return string" ex_string can_address headers responsebody =
            .ok (test_fail "Don't find expected string!"))
       ∧ (st ≠ "200" →
          ∀ body2 : String,
            evaluate "return string" ex_string can_address headers body2 =
              .ok (test_fail ("HTTP status is: " ++ st)))) := by
  intro ex_string can_address headers responsebody st hex hst
  refine ⟨?_, ?_, ?_⟩
  · intro h200 hsub
    subst h200
    rw [evaluate_some "return string" ex_string can_address headers responsebody "200" hst]
    rw [if_neg (by decide : ¬("return string" : String) = "http success")]
    rw [if_pos (by decide : ("return string" : String) = "return string")]
    rw [if_neg (not_not_intro rfl)]
    rw [hex]
    rw [if_neg (by decide : ¬(!true) = true)]
    rw [hsub]
    rw [if_neg (by decide : ¬(!true) = true)]
  · intro h200 hsub
    subst h200
    rw [evaluate_some "return string" ex_string can_address headers responsebody "200" hst]
    rw [if_neg (by decide : ¬("return string" : String) = "http success")]
    rw [if_pos (by decide : ("return string" : String) = "return string")]
    rw [if_neg (not_not_intro rfl)]
    rw [hex]
    rw [if_neg (by decide : ¬(!true) = true)]
    rw [hsub]
    rw [if_pos (by decide : (!false) = true)]
  · intro hne body2
    rw [evaluate_some "return string" ex_string can_address headers body2 st hst]
    rw [if_neg (by decide : ¬("return string" : String) = "http success")]
    rw [if_pos (by decide : ("return string" : String) = "return string")]
    rw [if_pos hne]

/-- C5 witness: a 200 response whose body holds the expected string abc
is a success. -/
theorem c5_wit :
    evaluate "return string" "abc" "" [("status", "200")] "xxabcyy" = .ok test_success :=
  ((c5_thm "abc" "" [("status", "200")] "xxabcyy" "200" rfl rfl).1) rfl rfl

/-- C6: for every redirect evaluation with a configured canonical address
(one passing the presence check of the script), the verdict is success
exactly when the first character of the status is 3, a location header
is present and its value equals the canonical address by plain string
equality, with no normalization; failures take precedence in the order
non 3xx status, then missing location header, then mismatched location
value. -/
theorem c6_thm :
    ∀ (ex_string can_address : String) (headers : HeaderMap) (responsebody st : String),
      hasAlnum can_address = true →
      dget headers "status" = some st →
      ((pyTake st 1 ≠ "3" →
          evaluate "redirect" ex_string can_address headers responsebody =
            .ok (test_fail ("Response code is not a redirect: " ++ st)))
       ∧ (pyTake st 1 = "3" → dget headers "location" = none →
          evaluate "redirect" ex_string can_address headers responsebody =
            .ok (test_fail "Response code is a redirect but no Location header!"))
       ∧ (∀ loc : String, pyTake st 1 = "3" → dget headers "location" = some loc →
            loc ≠ can_address →
            evaluate "redirect" ex_string can_address headers responsebody =
              .ok (test_fail ("Redirect location is wrong: " ++ loc)))
       ∧ (pyTake st 1 = "3" → dget headers "location" = some can_address →
          evaluate "redirect" ex_string can_address headers responsebody = .ok test_success)
       ∧ (∀ r : TestResult,
            evaluate "redirect" ex_string can_address headers responsebody = .ok r →
            (r.success = true ↔
              (pyTake st 1 = "3" ∧ dget headers "location" = some can_address)))) := by
  intro ex_string can_address headers responsebody st hca hst
  have hpre :
      evaluate "redirect" ex_string can_address headers responsebody =
        (if pyTake st 1 ≠ "3" then
          .ok (test_fail ("Response code is not a redirect: " ++ st))
        else
          match dget headers "location" with
          | none => .ok (test_fail "Response code is a redirect but no Location header!")
          | some loc =>
            if !(hasAlnum can_address) then
              .error (.configError "\"redirect\" check specified but \"canonical address\" is not defined!")
            else if loc ≠ can_address then
              .ok (test_fail ("Redirect location is wrong: " ++ loc))
            else .ok test_success) := by
    rw [evaluate_some "redirect" ex_string can_address headers responsebody st hst]
    rw [if_neg (by decide : ¬("redirect" : String) = "http success")]
    rw [if_neg (by decide : ¬("redirect" : String) = "return string")]
    rw [if_pos (by decide : ("redirect" : String) = "redirect")]
  refine ⟨?_, ?_, ?_, ?_, ?_⟩
  · intro h3
    rw [hpre, if_pos h3]
  · intro h3 hloc
    rw [hpre, if_neg (not_not_intro h3), hloc]
  · intro loc h3 hloc hne
    rw [hpre, if_neg (not_not_intro h3), hloc, hca]
    dsimp only
    rw [if_neg (by decide : ¬(!true) = true), if_pos hne]
  · intro h3 hloc
    rw [hpre, if_neg (not_not_intro h3), hloc, hca]
    dsimp only
    rw [if_neg (by decide : ¬(!true) = true), if_neg (not_not_intro rfl)]
  · intro r hr
    by_cases h3 : pyTake st 1 = "3"
    · cases hloc : dget headers "location" with
      | none =>
        rw [hpre, if_neg (not_not_intro h3), hloc] at hr
        injection hr with hr2
        subst hr2
        simp [test_fail, hloc]
      | some loc =>
        by_cases hlc : loc = can_address
        · subst hlc
          rw [hpre, if_neg (not_not_intro h3), hloc, hca] at hr
          dsimp only at hr
          rw [if_neg (by decide : ¬(!true) = true), if_neg (not_not_intro rfl)] at hr
          injection hr with hr2
          subst hr2
          simp [test_success, h3, hloc]
        · rw [hpre, if_neg (not_not_intro h3), hloc, hca] at hr
          dsimp only at hr
          rw [if_neg (by decide : ¬(!true) = true), if_pos hlc] at hr
          injection hr with hr2
          subst hr2
          simp [test_fail, hloc, hlc]
    · rw [hpre, if_pos h3] at hr
      injection hr with hr2
      subst hr2
      simp [test_fail, h3]

/-- C6 witness: a 301 response whose location header equals the
canonical address is a success. -/
theorem c6_wit :
    evaluate "redirect" "" "https://example.com/new"
      [("status", "301"), ("location", "https://example.com/new")] "" = .ok test_success :=
  ((c6_thm "" "https://example.com/new"
    [("status", "301"), ("location", "https://example.com/new")] "" "301" rfl rfl).2.2.2.1) rfl rfl

/-- Unfolding of perform_test for a plain http probe: no certificate
step, just the curl section. -/
theorem perform_test_http (env : NetEnv) (url action ex_string can_address : String)
    (tip : Nat) :
    perform_test env "http://" url action ex_string can_address tip =
      (perform_curl_res env "http://" url action ex_string can_address tip,
       [NetEvent.curlPerform ("http://" ++ url) tip]) := by
  unfold perform_test
  rw [if_neg (by decide : ¬("http://" : String) = "https://")]
  rfl

/-- Unfolding of perform_test when fetching the certificate raises: the
exception propagates, after the one fetch. -/
theorem perform_test_https_raise (env : NetEnv) (url action ex_string can_address : String)
    (tip : Nat) (m : String) (h : env.certFetch (hostOf url) = .error m) :
    perform_test env "https://" url action ex_string can_address tip =
      (.error (.exc m), [NetEvent.certFetch (hostOf url)]) := by
  unfold perform_test
  rw [if_pos rfl, h]

/-- Unfolding of perform_test when the certificate expires within the
hardcoded two weeks: the test fails at once with the expiry date and no
curl transfer happens. -/
theorem perform_test_https_expiring (env : NetEnv) (url action ex_string can_address : String)
    (tip : Nat) (cert : CertInfo) (h : env.certFetch (hostOf url) = .ok cert)
    (hlt : cert.notAfterSec - env.nowSec < two_weeks) :
    perform_test env "https://" url action ex_string can_address tip =
      (.ok (test_fail ("certificate expires in " ++ cert.notAfterDateIso)),
       [NetEvent.certFetch (hostOf url)]) := by
  unfold perform_test
  rw [if_pos rfl, h]
  dsimp only
  rw [if_pos hlt]

/-- Unfolding of perform_test when the certificate is good for at least
two weeks: the curl section runs after the fetch. -/
theorem perform_test_https_valid (env : NetEnv) (url action ex_string can_address : String)
    (tip : Nat) (cert : CertInfo) (h : env.certFetch (hostOf url) = .ok cert)
    (hge : ¬(cert.notAfterSec - env.nowSec < two_weeks)) :
    perform_test env "https://" url action ex_string can_address tip =
      (perform_curl_res env "https://" url action ex_string can_address tip,
       [NetEvent.certFetch (hostOf url), NetEvent.curlPerform ("https://" ++ url) tip]) := by
  unfold perform_test
  rw [if_pos rfl, h]
  dsimp only
  rw [if_neg hge]
  rfl

/-- C1 counterexample: for an https probe, an exception raised while
fetching the server certificate propagates out of perform_test and
aborts the run instead of becoming a failed TestOutcome: the fetch is
outside any try block. -/
theorem c1_cex :
    (perform_test envCertErr "https://" "example.com" "http success" "" "" 1).1 =
      .error (.exc "ssl.SSLEOFError") := rfl

/-- C1 as amended: failures of the curl transfer itself (pycurl.error)
are caught and returned as a TestOutcome with success false carrying the
error text, for http probes and for https probes whose certificate step
passed; but for https probes an exception while fetching the server
certificate is not caught and propagates to the caller. -/
theorem c1_thm :
    ∀ (env : NetEnv) (url action ex_string can_address : String) (tip : Nat)
      (e m : String) (cert : CertInfo),
      (env.curl ("http://" ++ url) tip = .error e →
        perform_test env "http://" url action ex_string can_address tip =
          (.ok (test_fail e), [NetEvent.curlPerform ("http://" ++ url) tip]))
      ∧ (env.certFetch (hostOf url) = .ok cert →
         ¬(cert.notAfterSec - env.nowSec < two_weeks) →
         env.curl ("https://" ++ url) tip = .error e →
         perform_test env "https://" url action ex_string can_address tip =
           (.ok (test_fail e),
            [NetEvent.certFetch (hostOf url), NetEvent.curlPerform ("https://" ++ url) tip]))
      ∧ (env.certFetch (hostOf url) = .error m →
         perform_test env "https://" url action ex_string can_address tip =
           (.error (.exc m), [NetEvent.certFetch (hostOf url)])) := by
  intro env url action ex_string can_address tip e m cert
  refine ⟨?_, ?_, ?_⟩
  · intro hcurl
    have hres : perform_curl_res env "http://" url action ex_string can_address tip =
        .ok (test_fail e) := by
      unfold perform_curl_res
      rw [hcurl]
    rw [perform_test_http, hres]
  · intro hcert hge hcurl
    have hres : perform_curl_res env "https://" url action ex_string can_address tip =
        .ok (test_fail e) := by
      unfold perform_curl_res
      rw [hcurl]
    rw [perform_test_https_valid env url action ex_string can_address tip cert hcert hge, hres]
  · intro hm
    exact perform_test_https_raise env url action ex_string can_address tip m hm

/-- C1 witness: a timed out https transfer with a healthy certificate is
returned as a failed outcome carrying the pycurl error text. -/
theorem c1_wit :
    perform_test envCurlFail "https://" "example.com" "http success" "" "" 1 =
      (.ok (test_fail "(28, 'Connection timed out')"),
       [NetEvent.certFetch "example.com", NetEvent.curlPerform "https://example.com" 1]) :=
  (c1_thm envCurlFail "example.com" "http success" "" "" 1
    "(28, 'Connection timed out')" "" certOkFar).2.1 rfl (by decide) rfl

/-- C3 counterexample: with a configured horizon of one week, a positive
horizon, and a certificate expiring in ten days, the claim predicts a
pass, but the probe fails naming the expiry date: the script compares
against a hardcoded two weeks and consults no configured horizon. -/
theorem c3_cex :
    (perform_test envTenDays "https://" "example.com" "http success" "" "" 1).1 =
      .ok (test_fail "certificate expires in 2026-10-22")
    ∧ (0 : Int) < 604800
    ∧ (604800 : Int) ≤ certTenDays.notAfterSec - envTenDays.nowSec :=
  ⟨rfl, by decide, by decide⟩

/-- C3 as amended: the certificate check runs exactly when the protocol
prefix is https (an http probe performs no certificate fetch, an https
probe always fetches first), against a horizon hardcoded at two weeks: a
certificate with notAfter minus now below two weeks fails the probe at
once with the expiry date in the message, one at two weeks or more
passes the gate and the curl transfer proceeds. -/
theorem c3_thm :
    ∀ (env : NetEnv) (url action ex_string can_address : String) (tip : Nat)
      (cert : CertInfo),
      ((perform_test env "http://" url action ex_string can_address tip).2 =
        [NetEvent.curlPerform ("http://" ++ url) tip])
      ∧ ((perform_test env "https://" url action ex_string can_address tip).2.head? =
        some (NetEvent.certFetch (hostOf url)))
      ∧ (env.certFetch (hostOf url) = .ok cert →
         (cert.notAfterSec - env.nowSec < two_weeks →
           perform_test env "https://" url action ex_string can_address tip =
             (.ok (test_fail ("certificate expires in " ++ cert.notAfterDateIso)),
              [NetEvent.certFetch (hostOf url)]))
         ∧ (two_weeks ≤ cert.notAfterSec - env.nowSec →
           (perform_test env "https://" url action ex_string can_address tip).2 =
             [NetEvent.certFetch (hostOf url),
              NetEvent.curlPerform ("https://" ++ url) tip])) := by
  intro env url action ex_string can_address tip cert
  refine ⟨?_, ?_, ?_⟩
  · rw [perform_test_http]
  · cases hc : env.certFetch (hostOf url) with
    | error m =>
      rw [perform_test_https_raise env url action ex_string can_address tip m hc]
      rfl
    | ok c =>
      by_cases hlt : c.notAfterSec - env.nowSec < two_weeks
      · rw [perform_test_https_expiring env url action ex_string can_address tip c hc hlt]
        rfl
      · rw [perform_test_https_valid env url action ex_string can_address tip c hc hlt]
        rfl
  · intro hcert
    constructor
    · intro hlt
      exact perform_test_https_expiring env url action ex_string can_address tip cert hcert hlt
    · intro hge
      rw [perform_test_https_valid env url action ex_string can_address tip cert hcert
        (not_lt.mpr hge)]

/-- C3 witness: the five day certificate makes the https probe fail with
its expiry date and no curl transfer. -/
theorem c3_wit :
    perform_test envBad "https://" "example.com" "http success" "" "" 1 =
      (.ok (test_fail "certificate expires in 2026-10-17"),
       [NetEvent.certFetch "example.com"]) :=
  ((c3_thm envBad "example.com" "http success" "" "" 1 certBad).2.2 rfl).1 (by decide)

/-- C10: when the certificate of an https probe is within the two week
horizon, perform_test returns the certificate failure as the whole
outcome of that instruction, with no curl transfer in its trace, for
either IP family; and across the ipver loop the certificate fetch is
performed once per enabled IP family. -/
theorem c10_thm :
    ∀ (env : NetEnv) (url action protocol ex_string can_address : String)
      (testipv4 testipv6 : Bool) (tip : Nat) (cert : CertInfo),
      env.certFetch (hostOf url) = .ok cert →
      cert.notAfterSec - env.nowSec < two_weeks →
      (perform_test env "https://" url action ex_string can_address tip =
        (.ok (test_fail ("certificate expires in " ++ cert.notAfterDateIso)),
         [NetEvent.certFetch (hostOf url)]))
      ∧ ((run_ipvers env "https://" url action protocol ex_string can_address
            testipv4 testipv6).1 =
          .ok ((if testipv4 then
                  [describe "IPv4" url action protocol
                    (test_fail ("certificate expires in " ++ cert.notAfterDateIso))]
                else []) ++
               (if testipv6 then
                  [describe "IPv6" url action protocol
                    (test_fail ("certificate expires in " ++ cert.notAfterDateIso))]
                else [])))
      ∧ (countCert (run_ipvers env "https://" url action protocol ex_string can_address
            testipv4 testipv6).2 =
          (if testipv4 then 1 else 0) + (if testipv6 then 1 else 0)) := by
  intro env url action protocol ex_string can_address testipv4 testipv6 tip cert hcert hlt
  have hpt : ∀ t : Nat,
      perform_test env "https://" url action ex_string can_address t =
        (.ok (test_fail ("certificate expires in " ++ cert.notAfterDateIso)),
         [NetEvent.certFetch (hostOf url)]) := fun t =>
    perform_test_https_expiring env url action ex_string can_address t cert hcert hlt
  have hone : ∀ (ipver : String) (t : Nat),
      run_one_ipver env "https://" url action protocol ex_string can_address ipver t =
        (.ok [describe ipver url action protocol
               (test_fail ("certificate expires in " ++ cert.notAfterDateIso))],
         [NetEvent.certFetch (hostOf url)]) := by
    intro ipver t
    unfold run_one_ipver
    rw [hpt t]
  refine ⟨hpt tip, ?_, ?_⟩
  · unfold run_ipvers
    cases testipv4 <;> cases testipv6 <;>
      simp [hone, andThen, countCert]
  · unfold run_ipvers
    cases testipv4 <;> cases testipv6 <;>
      simp [hone, andThen, countCert]

/-- C10 witness: with the five day certificate and both families
enabled, the certificate fetch happens twice, once per family. -/
theorem c10_wit :
    countCert (run_ipvers envBad "https://" "example.com" "http success" "TLS" "" ""
      true true).2 = 2 :=
  (c10_thm envBad "example.com" "http success" "TLS" "" "" true true 1 certBad
    rfl (by decide)).2.2

/-- C2 counterexample: for the end to end scenario site (one url, one
http success test under TLS, both families enabled, the two week
horizon) with every probe healthy, the result list holds exactly two
TestOutcomes, not the three the claim demands: no separate certificate
check outcome exists. -/
theorem c2_cex :
    (test_site envOk siteExample).1 = .ok siteExampleOkResult
    ∧ siteExampleOkResult.tests.length = 2 :=
  ⟨rfl, rfl⟩

/-- C2 as amended: the scenario site yields exactly two TestOutcomes, the
IPv4 probe then the IPv6 probe; the certificate check happens inside
each https probe (the trace shows a certificate fetch before each
transfer), and when the certificate is expiring, each probe reports the
certificate failure as its own outcome and performs no transfer. -/
theorem c2_thm :
    test_site envOk siteExample =
      (.ok siteExampleOkResult,
       [NetEvent.certFetch "example.com", NetEvent.curlPerform "https://example.com" 1,
        NetEvent.certFetch "example.com", NetEvent.curlPerform "https://example.com" 2])
    ∧ test_site envBad siteExample =
      (.ok siteExampleBadResult,
       [NetEvent.certFetch "example.com", NetEvent.certFetch "example.com"]) :=
  ⟨rfl, rfl⟩

/-- C7: a site whose first pass shows no failed test is never retested by
check_result (it is returned as is, with no network event), and its
first pass result is a member of the final sorted summary that
run_monitor produces. -/
theorem c7_thm :
    ∀ (env env1 env2 : NetEnv) (siteconfigs : List SiteConfig)
      (firstpass finalr : List SiteResult) (sr : SiteResult),
      sr.fail_count = 0 →
      (check_result env siteconfigs sr = (.ok sr, []))
      ∧ (mapExcept (fun s => (test_site env1 s).1) siteconfigs = .ok firstpass →
         run_monitor env1 env2 siteconfigs = .ok finalr →
         sr ∈ firstpass → sr ∈ finalr) := by
  intro env env1 env2 scs firstpass finalr sr h0
  have hcr : ∀ e : NetEnv, check_result e scs sr = (.ok sr, []) := by
    intro e
    unfold check_result
    rw [h0]
    rw [if_pos (by decide : ((0 : Nat) == 0) = true)]
  refine ⟨hcr env, ?_⟩
  intro h1 h2 h3
  unfold run_monitor at h2
  rw [h1] at h2
  dsimp only at h2
  by_cases hr : 0 < (firstpass.filter (fun x => x.fail_count != 0)).length
  · rw [if_pos hr] at h2
    cases hm : mapExcept (fun x => (check_result env2 scs x).1) firstpass with
    | error e =>
      rw [hm] at h2
      cases h2
    | ok l2 =>
      rw [hm] at h2
      injection h2 with h2eq
      subst h2eq
      refine mem_pySorted l2 (mapExcept_mem firstpass l2 sr sr hm h3 ?_)
      show (check_result env2 scs sr).1 = .ok sr
      rw [hcr env2]
  · rw [if_neg hr] at h2
    injection h2 with h2eq
    subst h2eq
    exact mem_pySorted firstpass h3

/-- C7 witness: the healthy scenario site is returned untouched by
check_result and its first pass result is in the final summary. -/
theorem c7_wit :
    check_result envOk [siteExample] siteExampleOkResult = (.ok siteExampleOkResult, [])
    ∧ siteExampleOkResult ∈ [siteExampleOkResult] :=
  ⟨(c7_thm envOk envOk envOk [siteExample] [siteExampleOkResult] [siteExampleOkResult]
      siteExampleOkResult rfl).1,
   (c7_thm envOk envOk envOk [siteExample] [siteExampleOkResult] [siteExampleOkResult]
      siteExampleOkResult rfl).2 rfl rfl (List.mem_singleton.mpr rfl)⟩

/-- C8: the final sort is by descending fail count and stable: on the
input fail counts 0, 2, 0, 1 it yields 2, 1, then the two zero count
sites in their original relative order; and every output of the sort is
pairwise ordered by descending fail count. -/
theorem c8_thm :
    pySorted [srA, srB, srC, srD] = [srB, srD, srA, srC]
    ∧ ∀ l : List SiteResult,
        List.Pairwise (fun a b => b.fail_count ≤ a.fail_count) (pySorted l) :=
  ⟨rfl, pairwise_pySorted⟩

/-- C9 counterexample: the line HTTP/1.1 Okay matches HTTP/<1-9> at its
start but holds no run of three decimal digits, so group(0) is called on
None and AttributeError is raised: nothing is stored under the status
key and the claim fails for this header line sequence. -/
theorem c9_cex :
    process_headers [] ["HTTP/1.1 Okay\r\n"] = .error "AttributeError"
    ∧ isStatusLine "HTTP/1.1 Okay\r\n" = true :=
  ⟨rfl, rfl⟩

/-- C9 as amended: a header line matching HTTP/<1-9> at its start that
contains a run of three decimal digits has its first such run stored
under the dedicated status key, the map changing in no other way and the
line never being stored as a plain header; a matching line with no such
run raises AttributeError instead. -/
theorem c9_thm :
    ∀ (headers : HeaderMap) (line st : String),
      isStatusLine line = true →
      (findThreeDigits line.data = some st →
        header_function headers line = .ok (dset headers "status" st))
      ∧ (findThreeDigits line.data = none →
        header_function headers line = .error "AttributeError") := by
  intro headers line st h
  constructor
  · intro hf
    unfold header_function
    rw [if_pos h, hf]
  · intro hf
    unfold header_function
    rw [if_pos h, hf]

/-- C9 witness: a normal status line stores 200 under the status key and
nothing else. -/
theorem c9_wit :
    header_function [] "HTTP/1.1 200 OK\r\n" = .ok [("status", "200")] :=
  (c9_thm [] "HTTP/1.1 200 OK\r\n" "200" rfl).1 rfl

end Xylo
